import Mathlib

/-!
# Navigation header of the Decentralized Tender Platform front-end

A shallow embedding of `Frontend/dtp/pages/Components/header.js`: the component is a
function from its two inputs (the `provider` prop and `router.pathname`) to the JSX
tree it returns, or to the exception it throws: the comparison `provider == ""`
converts an object provider with `ToPrimitive`, which can throw.  The CSS-module
object `styles` is imported from a file outside the component and is taken as a
parameter.
-/

namespace Header

/-! ## JavaScript values, as far as `provider == ""` observes them -/

/-- JavaScript numbers: `NaN`, the two infinities and the finite values (the two zeros
are not told apart by `==` nor by truthiness, so they are one value here). -/
inductive JSNumber where
  | nan
  | infinity (negative : Bool)
  | finite (q : ℚ)
  deriving DecidableEq

/-- The primitive JavaScript values. -/
inductive JSPrimitive where
  | undefined
  | null
  | bool (b : Bool)
  | num (n : JSNumber)
  | bigint (i : Int)
  | symbol
  | str (s : String)
  deriving DecidableEq

/-- The ways an evaluation can end abruptly: a `TypeError` raised by the language
itself, or whatever a user-defined method or getter throws. -/
inductive JSError where
  | typeError
  | thrown
  deriving DecidableEq

/-- What calling a method of an object does: it returns a primitive, returns an
object, or throws. -/
inductive JSCall where
  | returnsPrimitive (q : JSPrimitive)
  | returnsObject
  | throws (e : JSError)
  deriving DecidableEq

/-- What reading a method-valued property of an object gives: nothing (`undefined` or
`null`), a value that is not callable, a function, or an exception from a getter. -/
inductive JSMethod where
  | absent
  | notCallable
  | function (call : JSCall)
  | accessThrows (e : JSError)
  deriving DecidableEq

/-- An object (arrays included), given by the three properties that `ToPrimitive`
looks up, own or inherited: `obj[Symbol.toPrimitive]`, `obj.valueOf` and
`obj.toString`. -/
structure JSObject where
  symbolToPrimitive : JSMethod
  valueOf : JSMethod
  toString : JSMethod
  deriving DecidableEq

/-- A JavaScript value that a caller can pass as a prop: a primitive (`undefined` is
also what an absent prop reads as) or an object. -/
inductive JSValue where
  | prim (q : JSPrimitive)
  | object (o : JSObject)
  deriving DecidableEq

/-- The object literal with no properties: the inherited `valueOf` returns the object
itself and the inherited `toString` returns `"[object Object]"`. -/
def JSObject.plain : JSObject :=
  ⟨.absent, .function .returnsObject, .function (.returnsPrimitive (.str "[object Object]"))⟩

/-- An array whose elements join to `joined`: the inherited `valueOf` returns the
array itself and the inherited `toString` returns the join. -/
def JSObject.array (joined : String) : JSObject :=
  ⟨.absent, .function .returnsObject, .function (.returnsPrimitive (.str joined))⟩

/-- The empty array, which joins to the empty string. -/
def JSObject.emptyArray : JSObject :=
  JSObject.array ""

/-- The object literal whose own `toString` property is the number 1 (not callable);
`valueOf` is inherited and returns the object itself. -/
def JSObject.toStringNotCallable : JSObject :=
  ⟨.absent, .function .returnsObject, .notCallable⟩

/-- An array holding one object whose string conversion throws a `TypeError`: the
join, and so the inherited `toString` of the array, throws it. -/
def JSObject.arrayJoinThrows : JSObject :=
  ⟨.absent, .function .returnsObject, .function (.throws .typeError)⟩

/-- ECMAScript `ToBoolean` on primitives: the falsy values are `undefined`, `null`,
`false`, `0`, `NaN`, `0n` and `""`. -/
def JSPrimitive.toBoolean : JSPrimitive → Bool
  | .undefined => false
  | .null => false
  | .bool b => b
  | .num .nan => false
  | .num (.infinity _) => true
  | .num (.finite q) => q != 0
  | .bigint i => i != 0
  | .symbol => true
  | .str s => s != ""

/-- ECMAScript `ToBoolean`: an object, whatever its methods, is truthy. -/
def JSValue.toBoolean : JSValue → Bool
  | .prim q => q.toBoolean
  | .object _ => true

/-- The expression `q == ""` for a primitive `q` (ECMAScript `IsLooselyEqual` with a
string on the right): a string is compared as a string; `undefined` and `null` equal
only each other; a number is compared with `ToNumber("") = 0`; a BigInt is compared
with `StringToBigInt("") = 0n`; a boolean is first converted to a number; a symbol
equals no string. -/
def JSPrimitive.looseEqEmpty : JSPrimitive → Bool
  | .undefined => false
  | .null => false
  | .bool b => !b
  | .num .nan => false
  | .num (.infinity _) => false
  | .num (.finite q) => q == 0
  | .bigint i => i == 0
  | .symbol => false
  | .str s => s == ""

/-- One round of ECMAScript `OrdinaryToPrimitive`: read the method; when it is
callable, call it; a primitive result ends the conversion (`some`), anything else
lets it go on (`none`). -/
def JSMethod.tryCall : JSMethod → Except JSError (Option JSPrimitive)
  | .absent => .ok none
  | .notCallable => .ok none
  | .accessThrows e => .error e
  | .function (.returnsPrimitive q) => .ok (some q)
  | .function .returnsObject => .ok none
  | .function (.throws e) => .error e

/-- ECMAScript `OrdinaryToPrimitive` with hint number: `valueOf` first, then
`toString`; a `TypeError` when neither gives a primitive. -/
def JSObject.ordinaryToPrimitive (o : JSObject) : Except JSError JSPrimitive :=
  match o.valueOf.tryCall with
  | .error e => .error e
  | .ok (some q) => .ok q
  | .ok none =>
    match o.toString.tryCall with
    | .error e => .error e
    | .ok (some q) => .ok q
    | .ok none => .error .typeError

/-- ECMAScript `ToPrimitive` of an object with no preferred type: the method under
`Symbol.toPrimitive` when there is one (a `TypeError` when it is not callable or
returns an object), `OrdinaryToPrimitive` otherwise. -/
def JSObject.toPrimitive (o : JSObject) : Except JSError JSPrimitive :=
  match o.symbolToPrimitive with
  | .absent => o.ordinaryToPrimitive
  | .notCallable => .error .typeError
  | .accessThrows e => .error e
  | .function (.returnsPrimitive q) => .ok q
  | .function .returnsObject => .error .typeError
  | .function (.throws e) => .error e

/-- ECMAScript `ToPrimitive`: a primitive is returned as it is, an object is
converted. -/
def JSValue.toPrimitive : JSValue → Except JSError JSPrimitive
  | .prim q => .ok q
  | .object o => o.toPrimitive

/-- The expression `v == ""`: an object is first converted with `ToPrimitive`, which
can throw, and the resulting primitive is compared. -/
def JSValue.looseEqEmpty (v : JSValue) : Except JSError Bool := do
  let q ← v.toPrimitive
  pure q.looseEqEmpty

/-- Whether `ToPrimitive` of the value completes without throwing; it does for every
primitive. -/
def JSValue.converts (v : JSValue) : Bool :=
  match v.toPrimitive with
  | .ok _ => true
  | .error _ => false

/-! ## The JSX tree -/

/-- The attributes that occur in the component's markup. -/
inductive Attr where
  | className (cls : String)
  | href (target : String)
  | legacyBehavior
  | style (color : String)
  deriving DecidableEq

/-- A rendered JSX node: a text child or an element with attributes and children. -/
inductive Node where
  | text (s : String)
  | elem (tag : String) (attrs : List Attr) (children : List Node)

/-- The class names of the imported CSS module `header.module.css` that the component
reads (`styles.header`, `styles.h2`, `styles.ul`, `styles.button`). -/
structure Styles where
  header : String
  h2 : String
  ul : String
  button : String

/-- The default export of `header.js`.  `provider` is the destructured prop with its
default `"ad"` (a default applies when the prop is absent or `undefined`); `pathname`
is `router.pathname` of the router returned by `useRouter()`.  The only step that can
throw is `provider == ""`, and only for an object provider; then no tree is
returned. -/
def header (styles : Styles) (provider : JSValue) (pathname : String) :
    Except JSError Node := do
  let provider := match provider with
    | .prim .undefined => JSValue.prim (.str "ad")
    | v => v
  return .elem "header" [.className styles.header] [
    .elem "h2" [.className styles.h2] [
      .elem "Link" [.href "/"] [.text "Decentralized Tender Platfrom"]],
    .elem "ul" [.className styles.ul] [
      .elem "li" [] [
        .elem "Link" [.href "/listTenders", .legacyBehavior] [
          .elem "a" [.style (if pathname == "/listTenders" then "#28435c" else "")] [
            .text "Home"]]],
      .elem "li" [] [
        .elem "Link" [.href "/", .legacyBehavior] [
          .elem "a" [.style (if pathname == "/" then "#28435c" else "")] [
            .text "Register"]]],
      .elem "li" [] [
        .elem "Link" [.href "/postTender", .legacyBehavior] [
          .elem "a" [.style (if pathname == "/postTender" then "#28435c" else "")] [
            .text "Post Tender"]]],
      .elem "li" [] [
        .elem "Link" [.href "/bid", .legacyBehavior] [
          .elem "a" [.style (if pathname == "/bid" then "#28435c" else "")] [
            .text "Bid"]]],
      .elem "li" [] [
        .elem "Link" [.href "/myTenders", .legacyBehavior] [
          .elem "a" [.style (if pathname == "/myTenders" then "#28435c" else "")] [
            .text "My Tenders"]]],
      .elem "li" [] [
        .elem "Link" [.href "/myBids", .legacyBehavior] [
          .elem "a" [.style (if pathname == "/myBids" then "#28435c" else "")] [
            .text "My Bid"]]],
      .elem "li" [] [
        .elem "Link" [.href "/winner", .legacyBehavior] [
          .elem "a" [.style (if pathname == "/winner" then "#28435c" else "")] [
            .text "Winners"]]]],
    .elem "button" [.className styles.button] [
      .text (if (← provider.looseEqEmpty) then "Not connected" else "Connected")]]

/-! ## Reading the rendered tree -/

/-- The colour token of the highlighted state. -/
def highlight : String := "#28435c"

/-- Tag of an element (`none` for a text node). -/
def Node.tag? : Node → Option String
  | .text _ => none
  | .elem tag _ _ => some tag

/-- Attributes of a node (a text node has none). -/
def Node.attrs : Node → List Attr
  | .text _ => []
  | .elem _ as _ => as

/-- Children of a node (a text node has none). -/
def Node.children : Node → List Node
  | .text _ => []
  | .elem _ _ cs => cs

/-- The `i`-th child of a node. -/
def Node.child? (n : Node) (i : Nat) : Option Node :=
  n.children.get? i

/-- The content of a text node. -/
def Node.text? : Node → Option String
  | .text s => some s
  | .elem _ _ _ => none

/-- The `href` attribute of a node, if it has one. -/
def Node.href? (n : Node) : Option String :=
  n.attrs.findSome? fun
    | .href t => some t
    | _ => none

/-- The `color` of the inline `style` attribute of a node, if it has one. -/
def Node.color? (n : Node) : Option String :=
  n.attrs.findSome? fun
    | .style c => some c
    | _ => none

/-- A link as the user sees it: where it goes, what it says, and the colour of its
inline style (`none` when the link carries no inline style). -/
structure LinkView where
  href : String
  label : String
  color : Option String
  deriving DecidableEq

/-- A link is highlighted when its inline colour is the highlight token. -/
def LinkView.highlighted (l : LinkView) : Bool :=
  l.color == some highlight

/-- The logo: the `Link` inside the `h2`, the first child of the header.  Its text is
its own child, and any inline style would sit on the `Link` itself. -/
def logo (t : Node) : Option LinkView := do
  let h2 ← t.child? 0
  let link ← h2.child? 0
  let href ← link.href?
  let label ← (← link.child? 0).text?
  pure ⟨href, label, link.color?⟩

/-- One navigation entry: a `li` holding a `Link` (with the target) that wraps an `a`
(with the inline style) around the label. -/
def navEntry (li : Node) : Option LinkView := do
  let link ← li.child? 0
  let href ← link.href?
  let a ← link.child? 0
  let label ← (← a.child? 0).text?
  pure ⟨href, label, a.color?⟩

/-- The navigation list: the children of the `ul`, the second child of the header, in
display order (`none` for a child that is not a well-formed entry). -/
def navEntries (t : Node) : List (Option LinkView) :=
  match t.child? 1 with
  | some ul => ul.children.map navEntry
  | none => []

/-- The label of the status button, the third child of the header. -/
def buttonLabel (t : Node) : Option String := do
  let button ← t.child? 2
  (← button.child? 0).text?

/-- The tags of the top-level children of the header, in order. -/
def topLevelTags (t : Node) : List (Option String) :=
  t.children.map Node.tag?

/-- The fixed navigation table of the component: label and target of each entry, in
display order, as read off the seven `li` elements. -/
def navTable : List (String × String) :=
  [("Home", "/listTenders"), ("Register", "/"), ("Post Tender", "/postTender"),
   ("Bid", "/bid"), ("My Tenders", "/myTenders"), ("My Bid", "/myBids"),
   ("Winners", "/winner")]

/-- The number of highlighted navigation links in a rendered header. -/
def highlightedCount (t : Node) : Nat :=
  (navEntries t).countP fun e => e.any LinkView.highlighted

/-- Whether an attribute is an inline style. -/
def Attr.isStyle : Attr → Bool
  | .style _ => true
  | _ => false

mutual
/-- The tree with every inline style removed, at every depth. -/
def Node.eraseStyle : Node → Node
  | .text s => .text s
  | .elem tag attrs cs => .elem tag (attrs.filter fun a => !a.isStyle) (eraseStyles cs)
/-- The children with every inline style removed. -/
def eraseStyles : List Node → List Node
  | [] => []
  | c :: cs => c.eraseStyle :: eraseStyles cs
end

/-- The claimed label rule "empty/falsy gives Not connected, anything else gives
Connected", stated with `ToBoolean`. -/
def labelByTruthiness (v : JSValue) : String :=
  if v.toBoolean then "Connected" else "Not connected"

/-- Class names used where a concrete CSS module is needed. -/
def sampleStyles : Styles :=
  ⟨"header", "h2", "ul", "button"⟩

/-! ## Basic facts about the rendered tree -/

/-- A value converts exactly when `ToPrimitive` returns some primitive. -/
theorem toPrimitive_of_converts {p : JSValue} (hp : p.converts = true) :
    ∃ q, p.toPrimitive = .ok q := by
  unfold JSValue.converts at hp
  cases h : p.toPrimitive with
  | ok q => exact ⟨q, rfl⟩
  | error e => rw [h] at hp; cases hp

/-- A provider that converts to the primitive `q` renders as the string provider `""`
when `q == ""` holds and as the string provider `"ad"` when it does not. -/
theorem header_of_toPrimitive (st : Styles) (c : String) {p : JSValue} {q : JSPrimitive}
    (hq : p.toPrimitive = .ok q) :
    header st p c = header st (.prim (.str (if q.looseEqEmpty then "" else "ad"))) c := by
  cases p with
  | prim q' =>
    cases hq
    cases q with
    | undefined => rfl
    | null => rfl
    | bool b => cases b <;> rfl
    | num n =>
      cases n with
      | nan => rfl
      | infinity b => rfl
      | finite r =>
        by_cases hr : r = 0
        · subst hr; rfl
        · have h0 : (JSPrimitive.num (.finite r)).looseEqEmpty = false := by
            simp [JSPrimitive.looseEqEmpty, hr]
          rw [h0]
          simp [header, JSValue.looseEqEmpty, JSValue.toPrimitive, h0]
          rfl
    | bigint i =>
      by_cases hi : i = 0
      · subst hi; rfl
      · have h0 : (JSPrimitive.bigint i).looseEqEmpty = false := by
          simp [JSPrimitive.looseEqEmpty, hi]
        rw [h0]
        simp [header, JSValue.looseEqEmpty, JSValue.toPrimitive, h0]
        rfl
    | symbol => rfl
    | str s =>
      by_cases hs : s = ""
      · subst hs; rfl
      · have h0 : (JSPrimitive.str s).looseEqEmpty = false := by
          simp [JSPrimitive.looseEqEmpty, hs]
        rw [h0]
        simp [header, JSValue.looseEqEmpty, JSValue.toPrimitive, h0]
        rfl
  | object o =>
    have ho : o.toPrimitive = .ok q := hq
    cases hb : q.looseEqEmpty <;>
      simp [header, JSValue.looseEqEmpty, JSValue.toPrimitive, ho, hb] <;> rfl

/-- A provider whose conversion throws makes the render throw the same error. -/
theorem header_of_error (st : Styles) (c : String) {p : JSValue} {e : JSError}
    (he : p.toPrimitive = .error e) : header st p c = .error e := by
  cases p with
  | prim q => cases he
  | object o =>
    have ho : o.toPrimitive = .error e := he
    simp [header, JSValue.looseEqEmpty, JSValue.toPrimitive, ho]

/-- A provider that converts renders a tree. -/
theorem header_total (st : Styles) (c : String) {p : JSValue} (hp : p.converts = true) :
    ∃ t, header st p c = .ok t := by
  obtain ⟨q, hq⟩ := toPrimitive_of_converts hp
  rw [header_of_toPrimitive st c hq]
  cases q.looseEqEmpty <;> exact ⟨_, rfl⟩

/-- Every rendered tree is the tree of the string provider `""` or of the string
provider `"ad"`. -/
theorem header_ok_cases {st : Styles} {p : JSValue} {c : String} {t : Node}
    (h : header st p c = .ok t) :
    header st (.prim (.str "")) c = .ok t ∨ header st (.prim (.str "ad")) c = .ok t := by
  cases hq : p.toPrimitive with
  | error e => rw [header_of_error st c hq] at h; cases h
  | ok q =>
    rw [header_of_toPrimitive st c hq] at h
    cases hb : q.looseEqEmpty <;> rw [hb] at h
    · exact Or.inr h
    · exact Or.inl h

/-- The navigation entries of a rendered header are the navigation table, each with
the conditional colour of its `a` element. -/
theorem navEntries_header {st : Styles} {p : JSValue} {c : String} {t : Node}
    (h : header st p c = .ok t) :
    navEntries t =
      navTable.map fun e =>
        some ⟨e.2, e.1, some (if c == e.2 then highlight else "")⟩ := by
  rcases header_ok_cases h with h | h <;> cases h <;> rfl

/-- The button label of a rendered header is the conditional text of the button,
decided by the primitive the provider converts to. -/
theorem buttonLabel_header {st : Styles} {p : JSValue} {c : String} {t : Node}
    {q : JSPrimitive} (hq : p.toPrimitive = .ok q) (h : header st p c = .ok t) :
    buttonLabel t = some (if q.looseEqEmpty then "Not connected" else "Connected") := by
  rw [header_of_toPrimitive st c hq] at h
  cases hb : q.looseEqEmpty <;> rw [hb] at h <;> cases h <;> rfl

/-- The logo link of a rendered header does not depend on the inputs. -/
theorem logo_header {st : Styles} {p : JSValue} {c : String} {t : Node}
    (h : header st p c = .ok t) :
    logo t = some ⟨"/", "Decentralized Tender Platfrom", none⟩ := by
  rcases header_ok_cases h with h | h <;> cases h <;> rfl

/-- The top-level children of a rendered header are the `h2`, the `ul` and the
`button`. -/
theorem topLevelTags_header {st : Styles} {p : JSValue} {c : String} {t : Node}
    (h : header st p c = .ok t) :
    topLevelTags t = [some "h2", some "ul", some "button"] := by
  rcases header_ok_cases h with h | h <;> cases h <;> rfl

/-- No navigation link of a rendered header is highlighted at a path that is none of
the seven targets. -/
theorem highlightedCount_of_unknown {st : Styles} {p : JSValue} {c : String} {t : Node}
    (h : header st p c = .ok t) (hc : c ∉ navTable.map Prod.snd) :
    highlightedCount t = 0 := by
  simp only [navTable, List.map_cons, List.map_nil, List.mem_cons, List.mem_singleton,
    List.not_mem_nil, or_false, not_or] at hc
  obtain ⟨h1, h2, h3, h4, h5, h6, h7⟩ := hc
  simp [highlightedCount, navEntries_header h, navTable, LinkView.highlighted, highlight,
    h1, h2, h3, h4, h5, h6, h7]

/-- The primitives that are loosely equal to the empty string. -/
theorem looseEqEmpty_iff (q : JSPrimitive) :
    q.looseEqEmpty = true ↔
      q = .str "" ∨ q = .num (.finite 0) ∨ q = .bigint 0 ∨ q = .bool false := by
  cases q with
  | undefined => simp [JSPrimitive.looseEqEmpty]
  | null => simp [JSPrimitive.looseEqEmpty]
  | bool b => cases b <;> simp [JSPrimitive.looseEqEmpty]
  | num n => cases n <;> simp [JSPrimitive.looseEqEmpty]
  | bigint i => simp [JSPrimitive.looseEqEmpty]
  | symbol => simp [JSPrimitive.looseEqEmpty]
  | str s => simp [JSPrimitive.looseEqEmpty]

/-! ## The claims -/

/-- C1: for every current path and each of the seven navigation links, the link's
colour is the highlight token `#28435c` if and only if the current path is exactly the
link's href, and is the empty string otherwise; the paths `/bid/1`, `/bid/` and `/Bid`
highlight no link.  This holds for every provider on which the render does not throw
(every primitive, so every string). -/
theorem nav_color_iff_exact_path (st : Styles) (p : JSValue) (c : String)
    (hp : p.converts = true) :
    (∃ t, header st p c = .ok t ∧
      (navEntries t).map (Option.map LinkView.href) =
          [some "/listTenders", some "/", some "/postTender", some "/bid",
           some "/myTenders", some "/myBids", some "/winner"] ∧
      (∀ l, some l ∈ navEntries t →
          (l.color = some "#28435c" ↔ c = l.href) ∧ (c ≠ l.href → l.color = some ""))) ∧
    (∀ c' ∈ ["/bid/1", "/bid/", "/Bid"],
      ∃ t, header st p c' = .ok t ∧ ∀ l, some l ∈ navEntries t → l.color = some "") := by
  constructor
  · obtain ⟨t, ht⟩ := header_total st c hp
    refine ⟨t, ht, ?_, ?_⟩
    · rw [navEntries_header ht]; rfl
    · intro l hl
      simp only [navEntries_header ht, navTable, highlight, List.map_cons, List.map_nil,
        List.mem_cons, List.mem_singleton, List.not_mem_nil, or_false,
        Option.some.injEq] at hl
      by_cases hc : c = l.href <;>
        rcases hl with h | h | h | h | h | h | h <;> subst h <;> simp_all
  · intro c' hc'
    obtain ⟨t, ht⟩ := header_total st c' hp
    refine ⟨t, ht, ?_⟩
    intro l hl
    simp only [List.mem_cons, List.mem_singleton, List.not_mem_nil, or_false] at hc'
    rcases hc' with h | h | h <;> subst h <;>
      simp only [navEntries_header ht, navTable, highlight, List.map_cons, List.map_nil,
        List.mem_cons, List.mem_singleton, List.not_mem_nil, or_false,
        Option.some.injEq] at hl <;>
      rcases hl with h | h | h | h | h | h | h <;> subst h <;> decide

theorem nav_color_iff_exact_path_witness :
    ∃ t, header sampleStyles (.prim (.str "0xABC...")) "/bid" = .ok t ∧
      (navEntries t).map (Option.map LinkView.href) =
          [some "/listTenders", some "/", some "/postTender", some "/bid",
           some "/myTenders", some "/myBids", some "/winner"] ∧
      (∀ l, some l ∈ navEntries t →
          (l.color = some "#28435c" ↔ "/bid" = l.href) ∧
          ("/bid" ≠ l.href → l.color = some "")) :=
  (nav_color_iff_exact_path sampleStyles (.prim (.str "0xABC...")) "/bid" rfl).1

/-- C2: the number of highlighted navigation links is exactly 1 when the current path
is the path of one of the navigation entries (the highlighted link is that entry and
all others are unstyled), and exactly 0 when the current path is none of them.  This
holds for every provider on which the render does not throw (every primitive, so
every string). -/
theorem highlighted_count_one_or_zero (st : Styles) (p : JSValue) (c : String)
    (hp : p.converts = true) :
    ∃ t, header st p c = .ok t ∧
      (c ∈ navTable.map Prod.snd →
        highlightedCount t = 1 ∧
        ∀ l, some l ∈ navEntries t →
          (l.highlighted = true ↔ l.href = c) ∧ (l.href ≠ c → l.color = some "")) ∧
      (c ∉ navTable.map Prod.snd → highlightedCount t = 0) := by
  obtain ⟨t, ht⟩ := header_total st c hp
  refine ⟨t, ht, ?_, highlightedCount_of_unknown ht⟩
  intro hc
  simp only [navTable, List.map_cons, List.map_nil, List.mem_cons, List.mem_singleton,
    List.not_mem_nil, or_false] at hc
  refine ⟨?_, ?_⟩
  · simp only [highlightedCount, navEntries_header ht]
    rcases hc with h | h | h | h | h | h | h <;> subst h <;> decide
  · intro l hl
    simp only [navEntries_header ht, navTable, List.map_cons, List.map_nil, List.mem_cons,
      List.mem_singleton, List.not_mem_nil, or_false, Option.some.injEq] at hl
    rcases hc with h | h | h | h | h | h | h <;> subst h <;>
      rcases hl with h | h | h | h | h | h | h <;> subst h <;> decide

theorem highlighted_count_one_or_zero_witness :
    (∃ t, header sampleStyles (.prim (.str "ad")) "/bid" = .ok t ∧ highlightedCount t = 1) ∧
    (∃ t, header sampleStyles (.prim (.str "ad")) "/bid/1" = .ok t ∧
      highlightedCount t = 0) := by
  constructor
  · obtain ⟨t, ht, h1, _⟩ :=
      highlighted_count_one_or_zero sampleStyles (.prim (.str "ad")) "/bid" rfl
    exact ⟨t, ht, (h1 (by decide)).1⟩
  · obtain ⟨t, ht, _, h0⟩ :=
      highlighted_count_one_or_zero sampleStyles (.prim (.str "ad")) "/bid/1" rfl
    exact ⟨t, ht, h0 (by decide)⟩

/-- C3: for every string passed as the provider, the render returns a tree whose
status button's label is `Not connected` if the string is empty and `Connected` if it
is non-empty; no other label is produced. -/
theorem button_label_of_string (st : Styles) (s : String) (c : String) :
    ∃ t, header st (.prim (.str s)) c = .ok t ∧
      (s = "" → buttonLabel t = some "Not connected") ∧
      (s ≠ "" → buttonLabel t = some "Connected") ∧
      (buttonLabel t = some "Not connected" ∨ buttonLabel t = some "Connected") := by
  obtain ⟨t, ht⟩ := header_total st c (rfl : (JSValue.prim (.str s)).converts = true)
  refine ⟨t, ht, ?_⟩
  have hl := buttonLabel_header (rfl : (JSValue.prim (.str s)).toPrimitive = .ok (.str s)) ht
  by_cases hs : s = "" <;> simp [hl, JSPrimitive.looseEqEmpty, hs]

theorem button_label_of_string_witness :
    (∃ t, header sampleStyles (.prim (.str "")) "/" = .ok t ∧
      buttonLabel t = some "Not connected") ∧
    (∃ t, header sampleStyles (.prim (.str "0xABC...")) "/" = .ok t ∧
      buttonLabel t = some "Connected") := by
  constructor
  · obtain ⟨t, ht, h1, _⟩ := button_label_of_string sampleStyles "" "/"
    exact ⟨t, ht, h1 rfl⟩
  · obtain ⟨t, ht, _, h2, _⟩ := button_label_of_string sampleStyles "0xABC..." "/"
    exact ⟨t, ht, h2 (by decide)⟩

/-- C4: when the provider prop is absent (`undefined`), the component renders as with
its default `"ad"`, which is non-empty, so it returns a tree whose status label is
`Connected`, for every current path. -/
theorem default_provider_connected (st : Styles) (c : String) :
    header st (.prim .undefined) c = header st (.prim (.str "ad")) c ∧
    "ad" ≠ "" ∧
    ∃ t, header st (.prim .undefined) c = .ok t ∧ buttonLabel t = some "Connected" :=
  ⟨rfl, by decide, _, rfl, rfl⟩

/-- C5, as stated, fails: at current path `/` the Register link is highlighted but the
logo link is not (it carries no inline colour at all). -/
theorem logo_not_highlighted_at_root :
    ∃ t, header sampleStyles (.prim (.str "ad")) "/" = .ok t ∧
      (logo t).map LinkView.color = some none ∧
      ¬ ((logo t).any LinkView.highlighted = true ∧
         (((navEntries t).get? 1).join).any LinkView.highlighted = true) := by
  refine ⟨_, rfl, ?_⟩
  decide

/-- C5, amended: the logo link and the Register navigation link both target `/`; when
the current path is `/` the Register link is rendered in the highlighted state, for
every provider value on which the render does not throw; the logo link carries no
inline colour at any path. -/
theorem register_highlighted_logo_unstyled (st : Styles) (p : JSValue) (c : String)
    (hp : p.converts = true) :
    (∃ t, header st p c = .ok t ∧
      (logo t).map LinkView.href = some "/" ∧
      (logo t).map LinkView.color = some none ∧
      (navEntries t).get? 1 =
        some (some ⟨"/", "Register", some (if c = "/" then "#28435c" else "")⟩)) ∧
    (∃ t, header st p "/" = .ok t ∧
      (navEntries t).get? 1 = some (some ⟨"/", "Register", some "#28435c"⟩)) := by
  constructor
  · obtain ⟨t, ht⟩ := header_total st c hp
    refine ⟨t, ht, ?_, ?_, ?_⟩
    · rw [logo_header ht]; rfl
    · rw [logo_header ht]; rfl
    · by_cases hc : c = "/" <;> simp [navEntries_header ht, navTable, highlight, hc]
  · obtain ⟨t, ht⟩ := header_total st "/" hp
    refine ⟨t, ht, ?_⟩
    rw [navEntries_header ht]
    rfl

theorem register_highlighted_logo_unstyled_witness :
    ∃ t, header sampleStyles (.prim (.str "ad")) "/" = .ok t ∧
      (navEntries t).get? 1 = some (some ⟨"/", "Register", some "#28435c"⟩) :=
  (register_highlighted_logo_unstyled sampleStyles (.prim (.str "ad")) "/bid" rfl).2

/-- C6, as stated, fails: `null` and `NaN` are falsy yet give `Connected`; the empty
array is truthy yet gives `Not connected`; and for the truthy object whose `toString`
is not callable the comparison throws, so there is no label at all. -/
theorem label_not_by_truthiness :
    (∃ t, header sampleStyles (.prim .null) "/" = .ok t ∧
      buttonLabel t = some "Connected" ∧
      labelByTruthiness (.prim .null) = "Not connected") ∧
    (∃ t, header sampleStyles (.prim (.num .nan)) "/" = .ok t ∧
      buttonLabel t = some "Connected" ∧
      labelByTruthiness (.prim (.num .nan)) = "Not connected") ∧
    (∃ t, header sampleStyles (.object .emptyArray) "/" = .ok t ∧
      buttonLabel t = some "Not connected" ∧
      labelByTruthiness (.object .emptyArray) = "Connected") ∧
    (header sampleStyles (.object .toStringNotCallable) "/" = .error .typeError ∧
      labelByTruthiness (.object .toStringNotCallable) = "Connected") := by
  refine ⟨⟨_, rfl, ?_⟩, ⟨_, rfl, ?_⟩, ⟨_, rfl, ?_⟩, rfl, ?_⟩ <;> decide

/-- C6, amended: for every explicitly supplied provider value, a primitive other than
`null` and `NaN` gives `Not connected` exactly when it is falsy and `Connected`
otherwise, while `null` and `NaN` give `Connected`; an array or object is first
converted with `ToPrimitive`: when the conversion throws the render throws and there
is no label, and otherwise the label is `Not connected` exactly when the resulting
primitive is `""`, `0`, `0n` or `false` (as for the empty array) and `Connected` for
any other resulting primitive (as for the object with no properties). -/
theorem label_by_loose_equality (st : Styles) (v : JSValue) (c : String) :
    (∀ q, v.toPrimitive = .ok q →
      ∃ t, header st v c = .ok t ∧
        (buttonLabel t = some "Not connected" ↔
          q = .str "" ∨ q = .num (.finite 0) ∨ q = .bigint 0 ∨ q = .bool false) ∧
        (buttonLabel t = some "Not connected" ∨ buttonLabel t = some "Connected")) ∧
    (∀ e, v.toPrimitive = .error e → header st v c = .error e) ∧
    (∀ q, v = .prim q → q ≠ .undefined → q ≠ .null → q ≠ .num .nan →
      ∃ t, header st v c = .ok t ∧ buttonLabel t = some (labelByTruthiness v)) ∧
    (∃ t, header st (.prim .null) c = .ok t ∧ buttonLabel t = some "Connected") ∧
    (∃ t, header st (.prim (.num .nan)) c = .ok t ∧ buttonLabel t = some "Connected") ∧
    (∃ t, header st (.object .emptyArray) c = .ok t ∧
      buttonLabel t = some "Not connected") ∧
    (∃ t, header st (.object .plain) c = .ok t ∧ buttonLabel t = some "Connected") ∧
    header st (.object .toStringNotCallable) c = .error .typeError ∧
    header st (.object .arrayJoinThrows) c = .error .typeError := by
  refine ⟨?_, ?_, ?_, ⟨_, rfl, rfl⟩, ⟨_, rfl, rfl⟩, ⟨_, rfl, rfl⟩, ⟨_, rfl, rfl⟩, rfl, rfl⟩
  · intro q hq
    have hc : v.converts = true := by simp [JSValue.converts, hq]
    obtain ⟨t, ht⟩ := header_total st c hc
    refine ⟨t, ht, ?_, ?_⟩
    · rw [buttonLabel_header hq ht, ← looseEqEmpty_iff]
      cases q.looseEqEmpty <;> simp
    · rw [buttonLabel_header hq ht]
      cases q.looseEqEmpty <;> simp
  · intro e he
    exact header_of_error st c he
  · intro q hv hu hn hnan
    subst hv
    obtain ⟨t, ht⟩ := header_total st c (rfl : (JSValue.prim q).converts = true)
    refine ⟨t, ht, ?_⟩
    rw [buttonLabel_header (rfl : (JSValue.prim q).toPrimitive = .ok q) ht]
    cases q with
    | undefined => exact absurd rfl hu
    | null => exact absurd rfl hn
    | bool b => cases b <;> rfl
    | num n =>
      cases n with
      | nan => exact absurd rfl hnan
      | infinity b => rfl
      | finite r =>
        by_cases hr : r = 0 <;>
          simp [JSPrimitive.looseEqEmpty, labelByTruthiness, JSValue.toBoolean,
            JSPrimitive.toBoolean, hr]
    | bigint i =>
      by_cases hi : i = 0 <;>
        simp [JSPrimitive.looseEqEmpty, labelByTruthiness, JSValue.toBoolean,
          JSPrimitive.toBoolean, hi]
    | symbol => rfl
    | str s =>
      by_cases hs : s = "" <;>
        simp [JSPrimitive.looseEqEmpty, labelByTruthiness, JSValue.toBoolean,
          JSPrimitive.toBoolean, hs]

theorem label_by_loose_equality_witness :
    (∃ t, header sampleStyles (.prim (.num (.finite 0))) "/" = .ok t ∧
      buttonLabel t = some (labelByTruthiness (.prim (.num (.finite 0))))) ∧
    (∃ t, header sampleStyles (.object (.array "1,2")) "/" = .ok t ∧
      (buttonLabel t = some "Not connected" ↔
        JSPrimitive.str "1,2" = .str "" ∨ JSPrimitive.str "1,2" = .num (.finite 0) ∨
          JSPrimitive.str "1,2" = .bigint 0 ∨ JSPrimitive.str "1,2" = .bool false) ∧
      (buttonLabel t = some "Not connected" ∨ buttonLabel t = some "Connected")) ∧
    header sampleStyles (.object ⟨.notCallable, .absent, .absent⟩) "/" = .error .typeError :=
  ⟨(label_by_loose_equality sampleStyles (.prim (.num (.finite 0))) "/").2.2.1 _ rfl
      (by decide) (by decide) (by decide),
   (label_by_loose_equality sampleStyles (.object (.array "1,2")) "/").1 _ rfl,
   (label_by_loose_equality sampleStyles (.object ⟨.notCallable, .absent, .absent⟩) "/").2.1
      _ rfl⟩

/-- C7: for every provider (on which the render does not throw) and current path, the
navigation list is exactly the seven entries (Home, /listTenders), (Register, /),
(Post Tender, /postTender), (Bid, /bid), (My Tenders, /myTenders), (My Bid, /myBids),
(Winners, /winner) in this order, and the seven targets are pairwise distinct. -/
theorem nav_list_fixed (st : Styles) (p : JSValue) (c : String) (hp : p.converts = true) :
    ∃ t, header st p c = .ok t ∧
      (navEntries t).map (Option.map fun l => (l.label, l.href)) =
        [some ("Home", "/listTenders"), some ("Register", "/"),
         some ("Post Tender", "/postTender"), some ("Bid", "/bid"),
         some ("My Tenders", "/myTenders"), some ("My Bid", "/myBids"),
         some ("Winners", "/winner")] ∧
      (navEntries t).length = 7 ∧
      ((navEntries t).map (Option.map LinkView.href)).Nodup := by
  obtain ⟨t, ht⟩ := header_total st c hp
  refine ⟨t, ht, ?_, ?_, ?_⟩
  · rw [navEntries_header ht]; rfl
  · rw [navEntries_header ht]; rfl
  · have h : (navEntries t).map (Option.map LinkView.href) =
        [some "/listTenders", some "/", some "/postTender", some "/bid",
         some "/myTenders", some "/myBids", some "/winner"] := by
      rw [navEntries_header ht]; rfl
    rw [h]
    decide

theorem nav_list_fixed_witness :
    ∃ t, header sampleStyles (.prim (.str "")) "/winner" = .ok t ∧
      (navEntries t).map (Option.map fun l => (l.label, l.href)) =
        [some ("Home", "/listTenders"), some ("Register", "/"),
         some ("Post Tender", "/postTender"), some ("Bid", "/bid"),
         some ("My Tenders", "/myTenders"), some ("My Bid", "/myBids"),
         some ("Winners", "/winner")] ∧
      (navEntries t).length = 7 ∧
      ((navEntries t).map (Option.map LinkView.href)).Nodup :=
  nav_list_fixed sampleStyles (.prim (.str "")) "/winner" rfl

/-- C8 (code evaluated): the rendered header begins with the `h2` whose link targets
`/`, and the text of that link is `Decentralized Tender Platfrom`, which is not the
claimed `Decentralized Tender Platform`. -/
theorem logo_text_misspelt (st : Styles) (p : JSValue) (c : String)
    (hp : p.converts = true) :
    ∃ t, header st p c = .ok t ∧
      (topLevelTags t).head? = some (some "h2") ∧
      logo t = some ⟨"/", "Decentralized Tender Platfrom", none⟩ ∧
      (logo t).map LinkView.label ≠ some "Decentralized Tender Platform" := by
  obtain ⟨t, ht⟩ := header_total st c hp
  refine ⟨t, ht, ?_, logo_header ht, ?_⟩
  · rw [topLevelTags_header ht]; rfl
  · rw [logo_header ht]
    decide

theorem logo_text_misspelt_witness :
    ∃ t, header sampleStyles (.prim (.str "ad")) "/" = .ok t ∧
      (topLevelTags t).head? = some (some "h2") ∧
      logo t = some ⟨"/", "Decentralized Tender Platfrom", none⟩ ∧
      (logo t).map LinkView.label ≠ some "Decentralized Tender Platform" :=
  logo_text_misspelt sampleStyles (.prim (.str "ad")) "/" rfl

/-- C9: for every provider string and every current path string the component does
not throw: it returns a complete header tree, made of the logo, seven well-formed
navigation links and the status button, in this order; a path that is none of the
known paths highlights no link, and any non-empty provider string gives the label
`Connected`. -/
theorem render_total (st : Styles) (s : String) (c : String) :
    ∃ t, header st (.prim (.str s)) c = .ok t ∧
      topLevelTags t = [some "h2", some "ul", some "button"] ∧
      (logo t).isSome = true ∧
      (navEntries t).length = 7 ∧
      (∀ e ∈ navEntries t, e.isSome = true) ∧
      (buttonLabel t).isSome = true ∧
      (c ∉ navTable.map Prod.snd → highlightedCount t = 0) ∧
      (s ≠ "" → buttonLabel t = some "Connected") := by
  obtain ⟨t, ht⟩ := header_total st c (rfl : (JSValue.prim (.str s)).converts = true)
  have hl := buttonLabel_header (rfl : (JSValue.prim (.str s)).toPrimitive = .ok (.str s)) ht
  refine ⟨t, ht, topLevelTags_header ht, ?_, ?_, ?_, ?_, highlightedCount_of_unknown ht, ?_⟩
  · rw [logo_header ht]; rfl
  · rw [navEntries_header ht]; rfl
  · intro e he
    simp only [navEntries_header ht, navTable, List.map_cons, List.map_nil, List.mem_cons,
      List.mem_singleton, List.not_mem_nil, or_false] at he
    rcases he with h | h | h | h | h | h | h <;> subst h <;> rfl
  · rw [hl]; rfl
  · intro hs
    simp [hl, JSPrimitive.looseEqEmpty, hs]

theorem render_total_witness :
    ∃ t, header sampleStyles (.prim (.str "not a wallet")) "//x?" = .ok t ∧
      highlightedCount t = 0 ∧ buttonLabel t = some "Connected" := by
  obtain ⟨t, ht, _, _, _, _, _, h0, hc⟩ := render_total sampleStyles "not a wallet" "//x?"
  exact ⟨t, ht, h0 (by decide), hc (by decide)⟩

/-- C10: the two inputs do not interfere (for providers on which the render does not
throw).  Changing the provider leaves the root, the logo subtree and the navigation
subtree unchanged and changes the button at most in its label; changing the current
path leaves the logo subtree and the button subtree (so the label) unchanged, leaves
every link's target and label unchanged, and changes the tree at most in its inline
styles. -/
theorem inputs_do_not_interfere (st : Styles) (p1 p2 : JSValue) (c1 c2 : String)
    (hp1 : p1.converts = true) (hp2 : p2.converts = true) :
    ∃ t11 t21 t12,
      header st p1 c1 = .ok t11 ∧ header st p2 c1 = .ok t21 ∧ header st p1 c2 = .ok t12 ∧
      (t11.tag? = t21.tag? ∧
        t11.attrs = t21.attrs ∧
        t11.children.length = 3 ∧
        t21.children.length = 3 ∧
        t11.child? 0 = t21.child? 0 ∧
        t11.child? 1 = t21.child? 1 ∧
        (t11.child? 2).map Node.tag? = (t21.child? 2).map Node.tag? ∧
        (t11.child? 2).map Node.attrs = (t21.child? 2).map Node.attrs ∧
        (t11.child? 2).map (fun b => b.children.length) = some 1 ∧
        (t21.child? 2).map (fun b => b.children.length) = some 1 ∧
        logo t11 = logo t21 ∧
        navEntries t11 = navEntries t21) ∧
      (buttonLabel t11 = buttonLabel t12 ∧
        t11.child? 2 = t12.child? 2 ∧
        t11.child? 0 = t12.child? 0 ∧
        logo t11 = logo t12 ∧
        (navEntries t11).map (Option.map fun l => (l.href, l.label)) =
          (navEntries t12).map (Option.map fun l => (l.href, l.label)) ∧
        t11.eraseStyle = t12.eraseStyle) := by
  obtain ⟨q1, hq1⟩ := toPrimitive_of_converts hp1
  obtain ⟨q2, hq2⟩ := toPrimitive_of_converts hp2
  rw [header_of_toPrimitive st c1 hq1, header_of_toPrimitive st c1 hq2,
    header_of_toPrimitive st c2 hq1]
  cases q1.looseEqEmpty <;> cases q2.looseEqEmpty <;>
    exact ⟨_, _, _, rfl, rfl, rfl,
      ⟨rfl, rfl, rfl, rfl, rfl, rfl, rfl, rfl, rfl, rfl, rfl, rfl⟩,
      ⟨rfl, rfl, rfl, rfl, rfl, rfl⟩⟩

theorem inputs_do_not_interfere_witness :
    ∃ t11 t21 t12,
      header sampleStyles (.prim (.str "")) "/bid" = .ok t11 ∧
      header sampleStyles (.prim (.str "0xABC...")) "/bid" = .ok t21 ∧
      header sampleStyles (.prim (.str "")) "/winner" = .ok t12 ∧
      navEntries t11 = navEntries t21 ∧
      buttonLabel t11 = buttonLabel t12 ∧
      t11.eraseStyle = t12.eraseStyle := by
  obtain ⟨t11, t21, t12, h11, h21, h12, ha, hb⟩ :=
    inputs_do_not_interfere sampleStyles (.prim (.str "")) (.prim (.str "0xABC..."))
      "/bid" "/winner" rfl rfl
  exact ⟨t11, t21, t12, h11, h21, h12, ha.2.2.2.2.2.2.2.2.2.2.2, hb.1, hb.2.2.2.2.2⟩

end Header
